import Mathlib

/-!
Shallow embedding of `src/lambdas/lambda2/lambda_function.py`
(weather outerwear recommendation Lambda) and proofs of the
specification claims about it.

Modelling conventions:
* Python floats carrying temperatures / precipitation probabilities are
  modelled as `ℚ` (the claims are about exact threshold comparisons).
* A Python value that may be `None` is modelled as an `Option`.
* A Python computation that may raise is modelled as `Except String α`
  (the `String` is the exception text).
* The outbound HTTP calls made by the handler are modelled as parameters
  holding the outcome each call would produce, so the handler itself is
  a pure function of the request and those outcomes.
-/

namespace WeatherLambda

/-- `MAX_RETRIES = 3` from the source. -/
def MAX_RETRIES : Nat := 3

/-! ## Recommendation engine

`get_outerwear_recommendations(temperature, precipitation_probability)`:
builds a list, appending a temperature-tier item via the
`if t < 0 / elif t < 10 / elif t < 16` chain, then appending
"rain jacket" when the probability is present and `> 40`.
-/

/-- Embedding of `get_outerwear_recommendations`.  The Python append
chain is rendered as list concatenations in the same order as the
source. -/
def get_outerwear_recommendations (temperature : ℚ)
    (precipitation_probability : Option ℚ) : List String :=
  let recommendations : List String := []
  let recommendations :=
    if temperature < 0 then recommendations ++ ["winter coat"]
    else if temperature < 10 then recommendations ++ ["light jacket"]
    else if temperature < 16 then recommendations ++ ["hoodie"]
    else recommendations
  let recommendations :=
    match precipitation_probability with
    | some p => if p > 40 then recommendations ++ ["rain jacket"] else recommendations
    | none => recommendations
  recommendations

/-! ## Retry fetcher

`fetch_with_retry(url)` runs `for attempt in range(MAX_RETRIES)`: each
iteration performs the network call and JSON parse; on success the value
is returned; on an exception, if `attempt < MAX_RETRIES - 1` it sleeps
`2 ** attempt` seconds and continues, otherwise it re-raises the caught
exception.  The network call is modelled by an oracle mapping the attempt
index to that attempt's outcome; the trace records how many attempts ran,
which sleeps happened, and the final outcome (`none` models the loop
falling through, which returns Python `None`; unreachable since
`MAX_RETRIES > 0`). -/

structure FetchTrace (α : Type) where
  attemptsMade : Nat
  sleeps : List Nat
  outcome : Option (Except String α)
  deriving Repr

/-- The body of the `for attempt in range(MAX_RETRIES)` loop of
`fetch_with_retry`, with the remaining iteration count as fuel. -/
def fetchLoop (oracle : Nat → Except String α) :
    Nat → Nat → Nat → List Nat → FetchTrace α
  | _, 0, made, sleeps => ⟨made, sleeps, none⟩
  | attempt, rem + 1, made, sleeps =>
    match oracle attempt with
    | .ok v => ⟨made + 1, sleeps, some (.ok v)⟩
    | .error e =>
      if attempt < MAX_RETRIES - 1 then
        fetchLoop oracle (attempt + 1) rem (made + 1) (sleeps ++ [2 ^ attempt])
      else ⟨made + 1, sleeps, some (.error e)⟩

/-- Embedding of `fetch_with_retry`, parameterised by the per-attempt
outcome oracle. -/
def fetch_with_retry (oracle : Nat → Except String α) : FetchTrace α :=
  fetchLoop oracle 0 MAX_RETRIES 0 []

/-! ## Geocoder

`get_coordinates(city)` fetches the geocoding endpoint and inspects the
parsed JSON: `if "results" not in data or len(data["results"]) == 0:
return None`, else it extracts `name`, `country`, `latitude`, `longitude`
from the first result with `.get` (absent fields become `None`).  The
parsed JSON is modelled by `GeoResponse`; `results = none` models a
response without a "results" key. -/

structure GeoResult where
  name : Option String
  country : Option String
  latitude : Option ℚ
  longitude : Option ℚ
  deriving DecidableEq, Repr

structure GeoResponse where
  results : Option (List GeoResult)
  deriving Repr

/-- Embedding of the result-inspection part of `get_coordinates`,
applied to the parsed geocoding response. -/
def get_coordinates (data : GeoResponse) : Option GeoResult :=
  match data.results with
  | none => none
  | some [] => none
  | some (result :: _) =>
    some { name := result.name, country := result.country,
           latitude := result.latitude, longitude := result.longitude }

/-! ## Weather fetcher -/

/-- The weather reading returned by `get_weather`: both fields come from
`.get` lookups, so either may be absent. -/
structure Weather where
  temperature : Option ℚ
  precipitationProbability : Option ℚ
  deriving DecidableEq, Repr

/-- The `current` section of the parsed weather response. -/
structure WeatherCurrent where
  temperature_2m : Option ℚ
  precipitation_probability : Option ℚ
  deriving DecidableEq, Repr

structure WeatherResponse where
  current : Option WeatherCurrent
  deriving Repr

/-- Embedding of the result-extraction part of `get_weather`:
`current = data.get("current", {})`, then the two field lookups. -/
def get_weather (data : WeatherResponse) : Weather :=
  let current := data.current.getD ⟨none, none⟩
  { temperature := current.temperature_2m,
    precipitationProbability := current.precipitation_probability }

/-- The temperature-tier part of the recommendation list, in isolation
(used to state the decomposition lemma below). -/
def tempPart (t : ℚ) : List String :=
  if t < 0 then ["winter coat"]
  else if t < 10 then ["light jacket"]
  else if t < 16 then ["hoodie"]
  else []

/-- The rain part of the recommendation list, in isolation. -/
def rainPart (p : Option ℚ) : List String :=
  match p with
  | some q => if q > 40 then ["rain jacket"] else []
  | none => []

/-- The recommendation list is exactly the temperature-tier part followed
by the rain part. -/
theorem recs_eq (t : ℚ) (p : Option ℚ) :
    get_outerwear_recommendations t p = tempPart t ++ rainPart p := by
  unfold get_outerwear_recommendations tempPart rainPart
  rcases p with _ | q <;> dsimp only <;> split_ifs <;> simp

theorem mem_rainPart (p : Option ℚ) (s : String) :
    s ∈ rainPart p ↔ s = "rain jacket" ∧ ∃ q, p = some q ∧ 40 < q := by
  unfold rainPart
  rcases p with _ | q
  · simp
  · dsimp only
    split_ifs with h <;> simp_all

/-! ## Response constructor and handler

`response(status_code, body)` wraps a body dict in an API Gateway
response with two fixed headers.  The body dicts built by the handler
have a `success` flag and either a `data` dict (success) or an `error`
string (failure); `Body` carries all three, with `Option` for the keys a
given dict may omit.  `lambda_handler` is parameterised by the outcomes
the two outbound calls would produce (`Except.error` models a raised
exception, caught by the handler's `except` block). -/

structure RespData where
  location : String
  temperature : ℚ
  precipitationProbability : Option ℚ
  outerwearRecommended : List String
  deriving DecidableEq, Repr

structure Body where
  success : Bool
  data : Option RespData
  error : Option String
  deriving DecidableEq, Repr

structure ApiResponse where
  statusCode : Nat
  headers : List (String × String)
  body : Body
  deriving DecidableEq, Repr

/-- Python's `str.strip()` with no argument: remove leading and
trailing whitespace. -/
def pyStrip (s : String) : String :=
  String.mk
    (((s.data.dropWhile Char.isWhitespace).reverse.dropWhile
        Char.isWhitespace).reverse)

/-- Embedding of `response`. -/
def response (status_code : Nat) (body : Body) : ApiResponse :=
  { statusCode := status_code,
    headers := [("Content-Type", "application/json"),
                ("Access-Control-Allow-Origin", "*")],
    body := body }

/-- Python f-string rendering of an optional value (`None` prints as
"None"), used for the location display string. -/
def optStr (s : Option String) : String :=
  match s with
  | some v => v
  | none => "None"

/-- The display location built by the handler:
`f"\x7blocation['name']\x7d, \x7blocation['country']\x7d"`. -/
def displayLocation (loc : GeoResult) : String :=
  optStr loc.name ++ ", " ++ optStr loc.country

/-- Embedding of `lambda_handler`.

* `qsp` models `event.get("queryStringParameters")`: `none` is an absent
  or null value, `some c` a parameter dict in which `c` is the value of
  its "city" key (`none` when the key is missing).
* `geo` is the outcome `get_coordinates(city)` would produce, `weather`
  the outcome `get_weather(...)` would produce; an `Except.error` is an
  exception propagating out of the call (e.g. exhausted retries), which
  the `try`/`except` boundary turns into the generic 500 response. -/
def lambda_handler (qsp : Option (Option String))
    (geo : Except String (Option GeoResult))
    (weather : Except String Weather) : ApiResponse :=
  let params : Option String := qsp.getD none
  let city := pyStrip (params.getD "")
  let tryResult : Except String ApiResponse :=
    if city = "" then
      Except.ok (response 400
        { success := false, data := none,
          error := some "Missing required parameter: city" })
    else if city.length > 100 then
      Except.ok (response 400
        { success := false, data := none,
          error := some "City name too long (max 100 characters)" })
    else
      match geo with
      | .error e => .error e
      | .ok none =>
        .ok (response 404
          { success := false, data := none,
            error := some ("City not found: " ++ city) })
      | .ok (some location) =>
        match weather with
        | .error e => .error e
        | .ok w =>
          match w.temperature with
          | none =>
            .ok (response 503
              { success := false, data := none,
                error := some "Weather data unavailable" })
          | some temp =>
            .ok (response 200
              { success := true,
                data := some
                  { location := displayLocation location,
                    temperature := temp,
                    precipitationProbability := w.precipitationProbability,
                    outerwearRecommended :=
                      get_outerwear_recommendations temp
                        w.precipitationProbability },
                error := none })
  match tryResult with
  | .ok r => r
  | .error _ =>
    response 500
      { success := false, data := none,
        error := some "Internal server error" }

/-- The five body dicts the handler can return on a non-200 path, and
the success body, named for reuse in the claim statements. -/
def missingCityBody : Body :=
  { success := false, data := none,
    error := some "Missing required parameter: city" }

def tooLongBody : Body :=
  { success := false, data := none,
    error := some "City name too long (max 100 characters)" }

def notFoundBody (city : String) : Body :=
  { success := false, data := none,
    error := some ("City not found: " ++ city) }

def unavailableBody : Body :=
  { success := false, data := none,
    error := some "Weather data unavailable" }

def internalErrorBody : Body :=
  { success := false, data := none,
    error := some "Internal server error" }

def successBody (loc : GeoResult) (temp : ℚ) (p : Option ℚ) : Body :=
  { success := true,
    data := some
      { location := displayLocation loc,
        temperature := temp,
        precipitationProbability := p,
        outerwearRecommended := get_outerwear_recommendations temp p },
    error := none }

/-- The city string the handler works with, extracted from the event:
`(event.get("queryStringParameters") or \x7b\x7d).get("city", "").strip()`. -/
def eventCity (qsp : Option (Option String)) : String :=
  pyStrip ((qsp.getD none).getD "")

/-- Normal form of the handler: its result as a decision tree over the
validated city, the geocoding outcome and the weather outcome. -/
theorem lambda_handler_eq (qsp : Option (Option String))
    (geo : Except String (Option GeoResult))
    (weather : Except String Weather) :
    lambda_handler qsp geo weather =
      if eventCity qsp = "" then response 400 missingCityBody
      else if (eventCity qsp).length > 100 then response 400 tooLongBody
      else
        match geo with
        | .error _ => response 500 internalErrorBody
        | .ok none => response 404 (notFoundBody (eventCity qsp))
        | .ok (some loc) =>
          match weather with
          | .error _ => response 500 internalErrorBody
          | .ok w =>
            match w.temperature with
            | none => response 503 unavailableBody
            | some temp =>
              response 200 (successBody loc temp w.precipitationProbability) := by
  rcases geo with e | _ | loc <;> rcases weather with e2 | ⟨wt, wp⟩ <;>
    try rcases wt with _ | temp
  all_goals
    unfold lambda_handler eventCity missingCityBody tooLongBody notFoundBody
      unavailableBody internalErrorBody successBody
  all_goals
    by_cases hc1 : pyStrip ((qsp.getD none).getD "") = "" <;>
      by_cases hc2 : 100 < (pyStrip ((qsp.getD none).getD "")).length <;>
        simp [hc1, hc2]

end WeatherLambda

open WeatherLambda

/-- C1: for every temperature, membership of each temperature-tier item in
the recommendation list is exactly characterised by its tier, with strict
boundaries: "winter coat" iff t < 0, "light jacket" iff 0 ≤ t < 10,
"hoodie" iff 10 ≤ t < 16, and for t ≥ 16 no temperature-based item (the
only possible member is "rain jacket"). -/
theorem c1_temperature_tiers (t : ℚ) (p : Option ℚ) :
    ("winter coat" ∈ get_outerwear_recommendations t p ↔ t < 0) ∧
    ("light jacket" ∈ get_outerwear_recommendations t p ↔ 0 ≤ t ∧ t < 10) ∧
    ("hoodie" ∈ get_outerwear_recommendations t p ↔ 10 ≤ t ∧ t < 16) ∧
    (16 ≤ t → ∀ s ∈ get_outerwear_recommendations t p, s = "rain jacket") := by
  have hr := mem_rainPart p
  refine ⟨?_, ?_, ?_, ?_⟩
  · rw [recs_eq]
    simp only [List.mem_append, hr]
    unfold tempPart
    split_ifs with h0 h10 h16 <;> simp_all <;>
      first
        | linarith
        | (constructor <;> linarith)
        | (intros; linarith)
  · rw [recs_eq]
    simp only [List.mem_append, hr]
    unfold tempPart
    split_ifs with h0 h10 h16 <;> simp_all <;>
      first
        | linarith
        | (constructor <;> linarith)
        | (intros; linarith)
  · rw [recs_eq]
    simp only [List.mem_append, hr]
    unfold tempPart
    split_ifs with h0 h10 h16 <;> simp_all <;>
      first
        | linarith
        | (constructor <;> linarith)
        | (intros; linarith)
  · intro h16 s hs
    rw [recs_eq] at hs
    rcases List.mem_append.mp hs with hs | hs
    · unfold tempPart at hs
      split_ifs at hs with h0 h10 h15 <;> first | (exfalso; linarith) | simp_all
    · exact ((mem_rainPart p s).mp hs).1

/-- C2: "rain jacket" is in the recommendation list iff the precipitation
probability is present and strictly greater than 40, for every
temperature. -/
theorem c2_rain_jacket (t : ℚ) (p : Option ℚ) :
    "rain jacket" ∈ get_outerwear_recommendations t p ↔
      ∃ q, p = some q ∧ 40 < q := by
  rw [recs_eq]
  simp only [List.mem_append, mem_rainPart]
  unfold tempPart
  split_ifs <;> simp

/-- C7: the recommendation list is always the temperature item (if any)
followed by the rain item (if any): it has at most two elements, has no
duplicates, and whenever "rain jacket" occurs it is the last element
(so a rain item never precedes a temperature item). -/
theorem c7_order_length_nodup (t : ℚ) (p : Option ℚ) :
    (get_outerwear_recommendations t p).length ≤ 2 ∧
    (get_outerwear_recommendations t p).Nodup ∧
    ("rain jacket" ∈ get_outerwear_recommendations t p →
      (get_outerwear_recommendations t p).getLast? = some "rain jacket") := by
  rw [recs_eq]
  unfold tempPart rainPart
  rcases p with _ | q <;> dsimp only <;> split_ifs <;> decide

/-- C8: the recommendation engine is deterministic: two calls with equal
inputs return equal lists (it is a pure function of its arguments). -/
theorem c8_deterministic (t₁ t₂ : ℚ) (p₁ p₂ : Option ℚ)
    (ht : t₁ = t₂) (hp : p₁ = p₂) :
    get_outerwear_recommendations t₁ p₁ = get_outerwear_recommendations t₂ p₂ := by
  rw [ht, hp]

/-- Witness for C8 at a concrete input. -/
theorem c8_deterministic_witness :
    get_outerwear_recommendations 5 (some 50) =
      get_outerwear_recommendations 5 (some 50) :=
  c8_deterministic 5 5 (some 50) (some 50) rfl rfl

/-- C4: for every per-attempt outcome oracle, the retry fetcher makes at
most `MAX_RETRIES = 3` attempts; its sleeps are exactly `2 ^ i` seconds
after each failed non-final attempt `i` (so `[1, 2]` when all attempts
fail); it ends in a raised error iff all three attempts fail; and the
error it ends with is the final attempt's own error, unchanged. -/
theorem c4_retry_fetcher (α : Type) (oracle : Nat → Except String α) :
    (fetch_with_retry oracle).attemptsMade ≤ MAX_RETRIES ∧
    (fetch_with_retry oracle).sleeps =
      (List.range ((fetch_with_retry oracle).attemptsMade - 1)).map
        (fun i => 2 ^ i) ∧
    ((∃ e, (fetch_with_retry oracle).outcome = some (Except.error e)) ↔
      ∀ i < MAX_RETRIES, ∃ e, oracle i = Except.error e) ∧
    (∀ e₂, oracle 2 = Except.error e₂ →
      (∀ i < 2, ∃ e, oracle i = Except.error e) →
      (fetch_with_retry oracle).outcome = some (Except.error e₂)) := by
  rcases h0 : oracle 0 with e0 | v0
  · rcases h1 : oracle 1 with e1 | v1
    · rcases h2 : oracle 2 with e2 | v2
      · have ht : fetch_with_retry oracle =
            ⟨3, [1, 2], some (Except.error e2)⟩ := by
          simp [fetch_with_retry, fetchLoop, MAX_RETRIES, h0, h1, h2]
        rw [ht]
        refine ⟨by simp [MAX_RETRIES], by simp [List.range_succ], ?_, ?_⟩
        · constructor
          · intro _ i hi
            have hi3 : i < 3 := hi
            interval_cases i
            · exact ⟨e0, h0⟩
            · exact ⟨e1, h1⟩
            · exact ⟨e2, h2⟩
          · intro _
            exact ⟨e2, rfl⟩
        · intro f hf _
          cases hf
          rfl
      · have ht : fetch_with_retry oracle =
            ⟨3, [1, 2], some (Except.ok v2)⟩ := by
          simp [fetch_with_retry, fetchLoop, MAX_RETRIES, h0, h1, h2]
        rw [ht]
        refine ⟨by simp [MAX_RETRIES], by simp [List.range_succ], ?_, ?_⟩
        · constructor
          · rintro ⟨e, he⟩
            simp at he
          · intro h
            rcases h 2 (by decide) with ⟨e, he⟩
            rw [h2] at he
            cases he
        · intro f hf _
          cases hf
    · have ht : fetch_with_retry oracle =
          ⟨2, [1], some (Except.ok v1)⟩ := by
        simp [fetch_with_retry, fetchLoop, MAX_RETRIES, h0, h1]
      rw [ht]
      refine ⟨by simp [MAX_RETRIES], by simp [List.range_succ], ?_, ?_⟩
      · constructor
        · rintro ⟨e, he⟩
          simp at he
        · intro h
          rcases h 1 (by decide) with ⟨e, he⟩
          rw [h1] at he
          cases he
      · intro f _ hall
        rcases hall 1 (by decide) with ⟨e, he⟩
        rw [h1] at he
        cases he
  · have ht : fetch_with_retry oracle =
        ⟨1, [], some (Except.ok v0)⟩ := by
      simp [fetch_with_retry, fetchLoop, MAX_RETRIES, h0]
    rw [ht]
    refine ⟨by simp [MAX_RETRIES], by simp, ?_, ?_⟩
    · constructor
      · rintro ⟨e, he⟩
        simp at he
      · intro h
        rcases h 0 (by decide) with ⟨e, he⟩
        rw [h0] at he
        cases he
    · intro f _ hall
      rcases hall 0 (by decide) with ⟨e, he⟩
      rw [h0] at he
      cases he

/-- Witness for C4: a concrete oracle that fails on every attempt; the
fetcher makes 3 attempts, sleeps 1s then 2s, and ends with the final
attempt's error. -/
theorem c4_retry_fetcher_witness :
    (∀ e₂, (fun i => (Except.error ("boom " ++ toString i) : Except String Nat)) 2 =
        Except.error e₂ →
      (∀ i < 2, ∃ e, (fun i => (Except.error ("boom " ++ toString i) : Except String Nat)) i =
          Except.error e) →
      (fetch_with_retry fun i =>
        (Except.error ("boom " ++ toString i) : Except String Nat)).outcome =
        some (Except.error e₂)) ∧
    (fetch_with_retry fun i =>
        (Except.error ("boom " ++ toString i) : Except String Nat)).outcome =
      some (Except.error "boom 2") := by
  have h := c4_retry_fetcher Nat
    (fun i => (Except.error ("boom " ++ toString i) : Except String Nat))
  refine ⟨h.2.2.2, ?_⟩
  exact h.2.2.2 "boom 2" rfl (by
    intro i hi
    exact ⟨"boom " ++ toString i, rfl⟩)

/-- C5: the geocoder returns NotFound (`none`) iff the response has no
"results" key or its results list is empty; otherwise it returns the
first result's name, country, latitude and longitude verbatim (absent
upstream fields stay absent rather than failing). -/
theorem c5_geocoder (data : GeoResponse) :
    (get_coordinates data = none ↔
      data.results = none ∨ data.results = some []) ∧
    (∀ r rs, data.results = some (r :: rs) → get_coordinates data = some r) := by
  rcases data with ⟨_ | (_ | ⟨r, rs⟩)⟩ <;> simp [get_coordinates]

/-- Witness for C5: a one-result response yields exactly that result. -/
theorem c5_geocoder_witness :
    get_coordinates
        ⟨some [⟨some "Toronto", some "Canada", some (437/10), some (-3971/50)⟩]⟩ =
      some ⟨some "Toronto", some "Canada", some (437/10), some (-3971/50)⟩ :=
  (c5_geocoder
      ⟨some [⟨some "Toronto", some "Canada", some (437/10), some (-3971/50)⟩]⟩).2
    ⟨some "Toronto", some "Canada", some (437/10), some (-3971/50)⟩ [] rfl

/-- C3: the handler's status code is always one of 200/400/404/503/500;
it is 400 exactly when the validated city is empty or over-long; and past
validation each outcome maps to its response: a geocoding exception to
the generic 500 (body independent of the exception text), geocoding
NotFound to 404 with "City not found: " followed by the city text, a
weather exception to the generic 500, an absent temperature to 503
"Weather data unavailable", and a present temperature to 200. -/
theorem c3_status_mapping (qsp : Option (Option String))
    (geo : Except String (Option GeoResult))
    (weather : Except String Weather) :
    ((lambda_handler qsp geo weather).statusCode = 200 ∨
     (lambda_handler qsp geo weather).statusCode = 400 ∨
     (lambda_handler qsp geo weather).statusCode = 404 ∨
     (lambda_handler qsp geo weather).statusCode = 503 ∨
     (lambda_handler qsp geo weather).statusCode = 500) ∧
    ((lambda_handler qsp geo weather).statusCode = 400 ↔
      (eventCity qsp = "" ∨ 100 < (eventCity qsp).length)) ∧
    (eventCity qsp ≠ "" → ¬ 100 < (eventCity qsp).length →
      ((∀ e, geo = Except.error e →
          lambda_handler qsp geo weather = response 500 internalErrorBody) ∧
       (geo = Except.ok none →
          lambda_handler qsp geo weather =
            response 404 (notFoundBody (eventCity qsp))) ∧
       (∀ loc, geo = Except.ok (some loc) →
         (∀ e, weather = Except.error e →
            lambda_handler qsp geo weather = response 500 internalErrorBody) ∧
         (∀ w, weather = Except.ok w →
           (w.temperature = none →
              lambda_handler qsp geo weather = response 503 unavailableBody) ∧
           (∀ temp, w.temperature = some temp →
              lambda_handler qsp geo weather =
                response 200
                  (successBody loc temp w.precipitationProbability)))))) := by
  rw [lambda_handler_eq]
  by_cases hc1 : eventCity qsp = "" <;>
    by_cases hc2 : 100 < (eventCity qsp).length <;>
      rcases geo with e | _ | loc <;>
        rcases weather with e2 | ⟨wt, wp⟩ <;>
          try rcases wt with _ | temp
  all_goals
    simp [hc1, hc2, response, missingCityBody, tooLongBody, notFoundBody,
      unavailableBody, internalErrorBody, successBody]

/-- Witness for C3: "Paris" with a NotFound geocoding outcome gets the
404 response carrying the city text. -/
theorem c3_status_mapping_witness :
    lambda_handler (some (some "Paris")) (Except.ok none)
        (Except.ok ⟨none, none⟩) =
      response 404 (notFoundBody (eventCity (some (some "Paris")))) :=
  ((c3_status_mapping (some (some "Paris")) (Except.ok none)
      (Except.ok ⟨none, none⟩)).2.2 (by decide) (by decide)).2.1 rfl

/-- C6: validation runs in order before any outbound call: an
empty-after-trim city gives 400 "Missing required parameter: city"; a
non-empty city longer than 100 characters gives 400 "City name too long
(max 100 characters)"; in both cases the result is independent of the
geocoding and weather outcomes (no outbound call can influence it). -/
theorem c6_validation_order (qsp : Option (Option String))
    (geo geo' : Except String (Option GeoResult))
    (weather weather' : Except String Weather) :
    (eventCity qsp = "" →
      lambda_handler qsp geo weather = response 400 missingCityBody) ∧
    (eventCity qsp ≠ "" → 100 < (eventCity qsp).length →
      lambda_handler qsp geo weather = response 400 tooLongBody) ∧
    ((eventCity qsp = "" ∨ 100 < (eventCity qsp).length) →
      lambda_handler qsp geo weather = lambda_handler qsp geo' weather') := by
  rw [lambda_handler_eq qsp geo weather, lambda_handler_eq qsp geo' weather']
  by_cases hc1 : eventCity qsp = "" <;>
    by_cases hc2 : 100 < (eventCity qsp).length <;>
      simp [hc1, hc2]

/-- Witness for C6: a whitespace-only city and a 101-character city give
the two 400 responses however the collaborators would behave. -/
theorem c6_validation_order_witness :
    lambda_handler (some (some "   ")) (Except.error "boom")
        (Except.ok ⟨some 5, none⟩) = response 400 missingCityBody ∧
    lambda_handler (some (some (String.mk (List.replicate 101 'a'))))
        (Except.error "boom") (Except.ok ⟨some 5, none⟩) =
      response 400 tooLongBody ∧
    lambda_handler (some (some "   ")) (Except.error "boom")
        (Except.ok ⟨some 5, none⟩) =
      lambda_handler (some (some "   ")) (Except.ok none)
        (Except.error "x") :=
  ⟨(c6_validation_order (some (some "   ")) (Except.error "boom")
      (Except.ok none) (Except.ok ⟨some 5, none⟩) (Except.error "x")).1
        (by decide),
   (c6_validation_order (some (some (String.mk (List.replicate 101 'a'))))
      (Except.error "boom") (Except.ok none) (Except.ok ⟨some 5, none⟩)
      (Except.error "x")).2.1 (by decide) (by decide),
   (c6_validation_order (some (some "   ")) (Except.error "boom")
      (Except.ok none) (Except.ok ⟨some 5, none⟩) (Except.error "x")).2.2
        (Or.inl (by decide))⟩

/-- C9: an event with no query parameters at all, or with no "city" key,
behaves exactly like an empty city string: 400 with "Missing required
parameter: city", independent of the collaborator outcomes. -/
theorem c9_missing_query_params (geo : Except String (Option GeoResult))
    (weather : Except String Weather) :
    lambda_handler none geo weather = response 400 missingCityBody ∧
    lambda_handler (some none) geo weather = response 400 missingCityBody ∧
    lambda_handler none geo weather =
      lambda_handler (some (some "")) geo weather :=
  ⟨rfl, rfl, rfl⟩

/-- C10: every handler response satisfies the payload invariant: success
is true iff the status is 200, data is present iff success, an error
string is present iff failure, and the headers are always the two fixed
headers of the `response` constructor. -/
theorem c10_payload_invariant (qsp : Option (Option String))
    (geo : Except String (Option GeoResult))
    (weather : Except String Weather) :
    ((lambda_handler qsp geo weather).body.success = true ↔
      (lambda_handler qsp geo weather).statusCode = 200) ∧
    ((lambda_handler qsp geo weather).body.data.isSome = true ↔
      (lambda_handler qsp geo weather).body.success = true) ∧
    ((lambda_handler qsp geo weather).body.error.isSome = true ↔
      (lambda_handler qsp geo weather).body.success = false) ∧
    (lambda_handler qsp geo weather).headers =
      [("Content-Type", "application/json"),
       ("Access-Control-Allow-Origin", "*")] := by
  rw [lambda_handler_eq]
  by_cases hc1 : eventCity qsp = "" <;>
    by_cases hc2 : 100 < (eventCity qsp).length <;>
      rcases geo with e | _ | loc <;>
        rcases weather with e2 | ⟨wt, wp⟩ <;>
          try rcases wt with _ | temp
  all_goals
    simp [hc1, hc2, response, missingCityBody, tooLongBody, notFoundBody,
      unavailableBody, internalErrorBody, successBody]

/-- Witness for C1 at the boundary temperatures 0, 10 and 16. -/
theorem c1_temperature_tiers_witness :
    "light jacket" ∈ get_outerwear_recommendations 0 none ∧
    "hoodie" ∈ get_outerwear_recommendations 10 none ∧
    (∀ s ∈ get_outerwear_recommendations 16 (some 60), s = "rain jacket") :=
  ⟨((c1_temperature_tiers 0 none).2.1).mpr ⟨le_refl 0, by norm_num⟩,
   ((c1_temperature_tiers 10 none).2.2.1).mpr ⟨le_refl 10, by norm_num⟩,
   (c1_temperature_tiers 16 (some 60)).2.2.2 (le_refl 16)⟩

/-- Witness for C7 at a hoodie-and-rain input: the rain item is last. -/
theorem c7_order_length_nodup_witness :
    (get_outerwear_recommendations 5 (some 50)).getLast? =
      some "rain jacket" :=
  (c7_order_length_nodup 5 (some 50)).2.2
    (by norm_num [get_outerwear_recommendations])
